import Mathlib

/-!
Shallow embedding of the SMC (System Management Controller) communication
module (`OptaNative/SMC/SMC.c` and `SMC.h`) and proofs about it.

Modelling conventions:
* Machine integers are `Nat` with explicit `% 2 ^ 32` where overflow matters.
* A C byte buffer of size `n` is a function `Fin n → Nat` (values in `0..255`).
* The key argument (a C string pointer) is a `List Nat` of byte values; reading
  `key[i]` is `key.getD i 0` (reading at or past the terminator yields 0).
* On the target platform (macOS, both arm64 and x86_64) `char` is signed, so
  `(uint32_t)key[i]` sign-extends a byte `b ≥ 0x80` to `b + 0xFFFFFF00`.
* The external host primitive `IOConnectCallStructMethod` is modelled by an
  environment `Env` assigning to every call index the status and the response
  record the service produces for that call; the functions thread a call
  counter and also return the list of request records they sent, so that
  "no second service call is issued" is expressible.
-/

/-- Status codes (`kern_return_t`); the bit pattern as a natural number. -/
abbrev kern_return_t := Nat

def kIOReturnSuccess : kern_return_t := 0

def kIOReturnNotFound : kern_return_t := 0xE00002F0

def SMC_CMD_READ_BYTES : Nat := 5

def SMC_CMD_READ_KEYINFO : Nat := 9

/-- C semantics of reading a byte `b` through a signed `char` and converting it
to `uint32_t`: values `0..127` are unchanged, values `128..255` sign-extend. -/
def scharToUInt32 (b : Nat) : Nat :=
  if b % 256 < 128 then b % 256 else b % 256 + 0xFFFFFF00

/-- `SMCKeyToUInt32` from SMC.c: `((uint32_t)key[0] << 24) |
((uint32_t)key[1] << 16) | ((uint32_t)key[2] << 8) | ((uint32_t)key[3])`. -/
def SMCKeyToUInt32 (key : List Nat) : Nat :=
  ((scharToUInt32 (key.getD 0 0) <<< 24) % 2 ^ 32) |||
  ((scharToUInt32 (key.getD 1 0) <<< 16) % 2 ^ 32) |||
  ((scharToUInt32 (key.getD 2 0) <<< 8) % 2 ^ 32) |||
  scharToUInt32 (key.getD 3 0)

/-- The four bytes of a 32-bit value, most-significant byte first. -/
def uint32BytesMSB (v : Nat) : List Nat :=
  [v / 2 ^ 24 % 256, v / 2 ^ 16 % 256, v / 2 ^ 8 % 256, v % 256]

theorem scharToUInt32_of_ascii {b : Nat} (h : b < 128) : scharToUInt32 b = b := by
  unfold scharToUInt32
  rw [Nat.mod_eq_of_lt (by omega)]
  exact if_pos h

theorem lor_eq_add_of_lt {a b i : Nat} (hb : b < 2 ^ i) (hd : a % 2 ^ i = 0) :
    a ||| b = a + b := by
  obtain ⟨c, rfl⟩ := Nat.dvd_of_mod_eq_zero hd
  exact (Nat.mul_add_lt_is_or hb c).symm

/-- Packing equation for ASCII bytes: no sign extension, disjoint bit fields. -/
theorem SMCKeyToUInt32_ascii (b0 b1 b2 b3 : Nat)
    (h0 : b0 < 128) (h1 : b1 < 128) (h2 : b2 < 128) (h3 : b3 < 128) :
    SMCKeyToUInt32 [b0, b1, b2, b3] = b0 * 2 ^ 24 + b1 * 2 ^ 16 + b2 * 2 ^ 8 + b3 := by
  unfold SMCKeyToUInt32
  simp only [List.getD_cons_zero, List.getD_cons_succ]
  rw [scharToUInt32_of_ascii h0, scharToUInt32_of_ascii h1,
    scharToUInt32_of_ascii h2, scharToUInt32_of_ascii h3]
  rw [Nat.shiftLeft_eq, Nat.shiftLeft_eq, Nat.shiftLeft_eq]
  rw [Nat.mod_eq_of_lt (show b0 * 2 ^ 24 < 2 ^ 32 by norm_num; omega),
    Nat.mod_eq_of_lt (show b1 * 2 ^ 16 < 2 ^ 32 by norm_num; omega),
    Nat.mod_eq_of_lt (show b2 * 2 ^ 8 < 2 ^ 32 by norm_num; omega)]
  rw [lor_eq_add_of_lt (i := 24) (show b1 * 2 ^ 16 < 2 ^ 24 by norm_num; omega)
    (Nat.mul_mod_left b0 (2 ^ 24))]
  rw [lor_eq_add_of_lt (i := 16) (show b2 * 2 ^ 8 < 2 ^ 16 by norm_num; omega)
    (show (b0 * 2 ^ 24 + b1 * 2 ^ 16) % 2 ^ 16 = 0 by norm_num; omega)]
  rw [lor_eq_add_of_lt (i := 8) (show b3 < 2 ^ 8 by norm_num; omega)
    (show (b0 * 2 ^ 24 + b1 * 2 ^ 16 + b2 * 2 ^ 8) % 2 ^ 8 = 0 by norm_num; omega)]

/-- C1: for every 4-character ASCII key (each byte below 0x80), encoding with
`SMCKeyToUInt32` and extracting the four bytes of the result most-significant
byte first recovers the original 4 characters exactly. -/
theorem C1_encode_roundtrip (b0 b1 b2 b3 : Nat)
    (h0 : b0 < 128) (h1 : b1 < 128) (h2 : b2 < 128) (h3 : b3 < 128) :
    uint32BytesMSB (SMCKeyToUInt32 [b0, b1, b2, b3]) = [b0, b1, b2, b3] := by
  rw [SMCKeyToUInt32_ascii b0 b1 b2 b3 h0 h1 h2 h3]
  unfold uint32BytesMSB
  norm_num
  refine ⟨by omega, by omega, by omega, by omega⟩

/-- Witness for C1 at the concrete key "TC0P" (bytes 0x54 0x43 0x30 0x50). -/
theorem C1_encode_roundtrip_witness :
    uint32BytesMSB (SMCKeyToUInt32 [0x54, 0x43, 0x30, 0x50]) = [0x54, 0x43, 0x30, 0x50] :=
  C1_encode_roundtrip 0x54 0x43 0x30 0x50 (by decide) (by decide) (by decide) (by decide)

/-- C4 counterexample: the byte 0x80 in position 3 is not packed verbatim into
bits 7–0; because `char` is signed it sign-extends, and the result is
0xFFFFFF80 rather than 0x80. -/
theorem C4_counterexample : SMCKeyToUInt32 [0, 0, 0, 0x80] ≠ 0x80 := by decide

/-- C4 amended: for every sequence of 4 bytes each below 0x80, `SMCKeyToUInt32`
packs them verbatim: byte 0 occupies exactly bits 31–24, byte 1 exactly bits
23–16, byte 2 exactly bits 15–8, and byte 3 exactly bits 7–0, no byte
influencing any other byte's field. -/
theorem C4_pack_verbatim_ascii (b0 b1 b2 b3 : Nat)
    (h0 : b0 < 128) (h1 : b1 < 128) (h2 : b2 < 128) (h3 : b3 < 128) :
    SMCKeyToUInt32 [b0, b1, b2, b3] = b0 * 2 ^ 24 + b1 * 2 ^ 16 + b2 * 2 ^ 8 + b3 ∧
    SMCKeyToUInt32 [b0, b1, b2, b3] / 2 ^ 24 % 2 ^ 8 = b0 ∧
    SMCKeyToUInt32 [b0, b1, b2, b3] / 2 ^ 16 % 2 ^ 8 = b1 ∧
    SMCKeyToUInt32 [b0, b1, b2, b3] / 2 ^ 8 % 2 ^ 8 = b2 ∧
    SMCKeyToUInt32 [b0, b1, b2, b3] % 2 ^ 8 = b3 := by
  have hp := SMCKeyToUInt32_ascii b0 b1 b2 b3 h0 h1 h2 h3
  rw [hp]
  norm_num at hp ⊢
  refine ⟨by omega, by omega, by omega, by omega⟩

/-- Witness for C4's amended theorem at the bytes of "TC0P". -/
theorem C4_pack_verbatim_ascii_witness :
    SMCKeyToUInt32 [0x54, 0x43, 0x30, 0x50] =
      0x54 * 2 ^ 24 + 0x43 * 2 ^ 16 + 0x30 * 2 ^ 8 + 0x50 ∧
    SMCKeyToUInt32 [0x54, 0x43, 0x30, 0x50] / 2 ^ 24 % 2 ^ 8 = 0x54 ∧
    SMCKeyToUInt32 [0x54, 0x43, 0x30, 0x50] / 2 ^ 16 % 2 ^ 8 = 0x43 ∧
    SMCKeyToUInt32 [0x54, 0x43, 0x30, 0x50] / 2 ^ 8 % 2 ^ 8 = 0x30 ∧
    SMCKeyToUInt32 [0x54, 0x43, 0x30, 0x50] % 2 ^ 8 = 0x50 :=
  C4_pack_verbatim_ascii 0x54 0x43 0x30 0x50 (by decide) (by decide) (by decide) (by decide)

/-- C9: `SMCKeyToUInt32` on the key "TC0P" returns exactly 0x54433050. -/
theorem C9_TC0P : SMCKeyToUInt32 ("TC0P".data.map Char.toNat) = 0x54433050 := by decide

/-- `SMCKeyData_keyInfo_t` from SMC.h: dataSize, dataType, dataAttributes. -/
structure SMCKeyData_keyInfo_t where
  dataSize : Nat
  dataType : Nat
  dataAttributes : Nat

def SMCKeyData_keyInfo_t.zero : SMCKeyData_keyInfo_t := ⟨0, 0, 0⟩

/-- `SMCKeyData_vers_t` from SMC.h. -/
structure SMCKeyData_vers_t where
  major : Nat
  minor : Nat
  build : Nat
  reserved : Nat
  release : Nat

/-- `SMCKeyData_pLimitData_t` from SMC.h. -/
structure SMCKeyData_pLimitData_t where
  version : Nat
  length : Nat
  cpuPLimit : Nat
  gpuPLimit : Nat
  memPLimit : Nat

/-- `SMCKeyData_t` from SMC.h: the record exchanged with the service. -/
structure SMCKeyData_t where
  key : Nat
  vers : SMCKeyData_vers_t
  pLimitData : SMCKeyData_pLimitData_t
  keyInfo : SMCKeyData_keyInfo_t
  result : Nat
  status : Nat
  data8 : Nat
  data32 : Nat
  bytes : Fin 32 → Nat

def SMCKeyData_t.zero : SMCKeyData_t :=
  ⟨0, ⟨0, 0, 0, 0, 0⟩, ⟨0, 0, 0, 0, 0⟩, ⟨0, 0, 0⟩, 0, 0, 0, 0, fun _ => 0⟩

/-- `SMCVal_t` from SMC.h: the output record of `SMCReadKey`. -/
structure SMCVal_t where
  key : Fin 5 → Nat
  dataSize : Nat
  dataType : Nat
  bytes : Fin 32 → Nat

def SMCVal_t.zero : SMCVal_t := ⟨fun _ => 0, 0, 0, fun _ => 0⟩

/-- Effect of `strncpy(dst, src, 4)` on a zeroed 5-byte `dst` followed by
`dst[4] = 0`: position `i < 4` receives `src[i]` when no NUL precedes it and 0
otherwise (strncpy zero-pads after the first NUL); positions 4 stays 0. -/
def strncpyKey (src : List Nat) : Fin 5 → Nat := fun i =>
  if i.1 < 4 ∧ ∀ j < i.1, src.getD j 0 ≠ 0 then src.getD i.1 0 else 0

/-- The service environment: for every call index, the status and the response
record that `IOConnectCallStructMethod` produces on that call. -/
structure Env where
  responses : Nat → kern_return_t × SMCKeyData_t

/-- `SMCGetKeyInfo` from SMC.c, relative to an environment and a call counter
`n`. Returns the status, the updated `keyInfo` out-parameter, the next call
counter, and the list of request records sent to the service. -/
def SMCGetKeyInfo (env : Env) (n : Nat) (key : Nat) (keyInfo : SMCKeyData_keyInfo_t) :
    kern_return_t × SMCKeyData_keyInfo_t × Nat × List SMCKeyData_t :=
  let inputData : SMCKeyData_t :=
    { SMCKeyData_t.zero with key := key, data8 := SMC_CMD_READ_KEYINFO }
  let result := (env.responses n).1
  let outputData := (env.responses n).2
  if result = kIOReturnSuccess then
    (result,
      { dataSize := outputData.keyInfo.dataSize,
        dataType := outputData.keyInfo.dataType,
        dataAttributes := outputData.keyInfo.dataAttributes },
      n + 1, [inputData])
  else
    (result, keyInfo, n + 1, [inputData])

/-- `SMCReadKey` from SMC.c, relative to an environment. `val` is the
caller-supplied out-parameter (memset to zero on entry, so the result never
depends on it). Returns the status, the final `val`, and the list of request
records sent to the service. -/
def SMCReadKey (env : Env) (key : List Nat) (val : SMCVal_t) :
    kern_return_t × SMCVal_t × List SMCKeyData_t :=
  let valZ : SMCVal_t :=
    { key := strncpyKey key, dataSize := 0, dataType := 0, bytes := fun _ => 0 }
  let keyUInt := SMCKeyToUInt32 key
  let r1 := SMCGetKeyInfo env 0 keyUInt SMCKeyData_keyInfo_t.zero
  if r1.1 ≠ kIOReturnSuccess then
    (r1.1, valZ, r1.2.2.2)
  else
    let keyInfo := r1.2.1
    let val1 : SMCVal_t :=
      { valZ with dataSize := keyInfo.dataSize, dataType := keyInfo.dataType }
    let inputData2 : SMCKeyData_t :=
      { SMCKeyData_t.zero with
        key := keyUInt,
        data8 := SMC_CMD_READ_BYTES,
        keyInfo := { SMCKeyData_keyInfo_t.zero with dataSize := keyInfo.dataSize } }
    let n1 := r1.2.2.1
    let result2 := (env.responses n1).1
    let outputData2 := (env.responses n1).2
    let val2 : SMCVal_t :=
      if result2 = kIOReturnSuccess then { val1 with bytes := outputData2.bytes } else val1
    (result2, val2, r1.2.2.2 ++ [inputData2])

/-- Environment for `SMCOpen`: the result of the `AppleSMC` service lookup
(`0` means no matching service is registered), and the status and connection
value that `IOServiceOpen` would produce if invoked. -/
structure OpenEnv where
  matchingService : Nat
  openResult : kern_return_t
  openConn : Nat

/-- `SMCOpen` from SMC.c, relative to an open-environment. `conn` is the
caller's out-parameter value before the call. Returns the status, the
out-parameter value after the call, and whether `IOServiceOpen` (the
connection handshake) was invoked. -/
def SMCOpen (env : OpenEnv) (conn : Nat) : kern_return_t × Nat × Bool :=
  let service := env.matchingService
  if service = 0 then
    (kIOReturnNotFound, conn, false)
  else
    (env.openResult, env.openConn, true)

theorem SMCGetKeyInfo_fst (env : Env) (n k : Nat) (ki : SMCKeyData_keyInfo_t) :
    (SMCGetKeyInfo env n k ki).1 = (env.responses n).1 := by
  simp only [SMCGetKeyInfo]
  split <;> rfl

theorem SMCGetKeyInfo_counter (env : Env) (n k : Nat) (ki : SMCKeyData_keyInfo_t) :
    (SMCGetKeyInfo env n k ki).2.2.1 = n + 1 := by
  simp only [SMCGetKeyInfo]
  split <;> rfl

theorem SMCGetKeyInfo_trace (env : Env) (n k : Nat) (ki : SMCKeyData_keyInfo_t) :
    (SMCGetKeyInfo env n k ki).2.2.2 =
      [{ SMCKeyData_t.zero with key := k, data8 := SMC_CMD_READ_KEYINFO }] := by
  simp only [SMCGetKeyInfo]
  split <;> rfl

theorem SMCGetKeyInfo_keyInfo_of_success (env : Env) (n k : Nat)
    (ki : SMCKeyData_keyInfo_t) (h : (env.responses n).1 = kIOReturnSuccess) :
    (SMCGetKeyInfo env n k ki).2.1 =
      ⟨(env.responses n).2.keyInfo.dataSize, (env.responses n).2.keyInfo.dataType,
        (env.responses n).2.keyInfo.dataAttributes⟩ := by
  simp only [SMCGetKeyInfo, if_pos h]

theorem SMCGetKeyInfo_keyInfo_of_failure (env : Env) (n k : Nat)
    (ki : SMCKeyData_keyInfo_t) (h : (env.responses n).1 ≠ kIOReturnSuccess) :
    (SMCGetKeyInfo env n k ki).2.1 = ki := by
  simp only [SMCGetKeyInfo, if_neg h]

/-- C7: if the service call inside `SMCGetKeyInfo` returns a non-success
status, `SMCGetKeyInfo` returns that status unmodified and the caller-supplied
`keyInfo` out-parameter is left exactly as it was before the call. -/
theorem C7_keyinfo_failure_frame (env : Env) (n k : Nat)
    (ki : SMCKeyData_keyInfo_t) (h : (env.responses n).1 ≠ kIOReturnSuccess) :
    (SMCGetKeyInfo env n k ki).1 = (env.responses n).1 ∧
    (SMCGetKeyInfo env n k ki).2.1 = ki := by
  refine ⟨SMCGetKeyInfo_fst env n k ki, ?_⟩
  simp only [SMCGetKeyInfo, if_neg h]

/-- Environment where every service call fails with `kIOReturnNotFound`. -/
def envMetaFail : Env := ⟨fun _ => (kIOReturnNotFound, SMCKeyData_t.zero)⟩

/-- Witness for C7 at a concrete failing environment and preexisting keyInfo. -/
theorem C7_keyinfo_failure_frame_witness :
    (SMCGetKeyInfo envMetaFail 0 0x54433050 ⟨7, 8, 9⟩).1 =
      (envMetaFail.responses 0).1 ∧
    (SMCGetKeyInfo envMetaFail 0 0x54433050 ⟨7, 8, 9⟩).2.1 = ⟨7, 8, 9⟩ :=
  C7_keyinfo_failure_frame envMetaFail 0 0x54433050 ⟨7, 8, 9⟩ (by decide)

/-- C8: when service discovery returns the null handle, `SMCOpen` returns
`kIOReturnNotFound`, never attempts the connection handshake, and leaves the
caller's out-parameter unwritten. -/
theorem C8_service_not_found (env : OpenEnv) (conn : Nat)
    (h : env.matchingService = 0) :
    SMCOpen env conn = (kIOReturnNotFound, conn, false) := by
  simp [SMCOpen, h]

/-- Witness for C8 at a concrete environment with no registered service. -/
theorem C8_service_not_found_witness :
    SMCOpen ⟨0, 0, 42⟩ 5 = (kIOReturnNotFound, 5, false) :=
  C8_service_not_found ⟨0, 0, 42⟩ 5 (by decide)

theorem SMCKeyToUInt32_take4 (key : List Nat) (h : 4 ≤ key.length) :
    SMCKeyToUInt32 (key.take 4) = SMCKeyToUInt32 key := by
  match key with
  | k0 :: k1 :: k2 :: k3 :: rest => rfl
  | [] => simp at h
  | [a] => simp at h
  | [a, b] => simp at h
  | [a, b, c] => simp at h

/-- C2: if the metadata query inside `SMCReadKey` fails, `SMCReadKey` returns
that exact status, issues no second service call, and the output record is all
zero except the key field: dataSize, dataType and all 32 buffer bytes are 0. -/
theorem C2_metadata_failure (env : Env) (key : List Nat) (val : SMCVal_t)
    (h : (env.responses 0).1 ≠ kIOReturnSuccess) :
    (SMCReadKey env key val).1 = (env.responses 0).1 ∧
    (SMCReadKey env key val).2.2.length = 1 ∧
    (SMCReadKey env key val).2.1.key = strncpyKey key ∧
    (SMCReadKey env key val).2.1.dataSize = 0 ∧
    (SMCReadKey env key val).2.1.dataType = 0 ∧
    ∀ i : Fin 32, (SMCReadKey env key val).2.1.bytes i = 0 := by
  refine ⟨?_, ?_, ?_, ?_, ?_, ?_⟩ <;>
    simp [SMCReadKey, SMCGetKeyInfo_fst, SMCGetKeyInfo_trace, h]

/-- C3: if the metadata query succeeds but the value-read call fails,
`SMCReadKey` returns the read-phase failure status and the output record's
dataSize and dataType hold exactly the values from the metadata response. -/
theorem C3_read_failure_keeps_metadata (env : Env) (key : List Nat) (val : SMCVal_t)
    (h1 : (env.responses 0).1 = kIOReturnSuccess)
    (h2 : (env.responses 1).1 ≠ kIOReturnSuccess) :
    (SMCReadKey env key val).1 = (env.responses 1).1 ∧
    (SMCReadKey env key val).2.1.dataSize = (env.responses 0).2.keyInfo.dataSize ∧
    (SMCReadKey env key val).2.1.dataType = (env.responses 0).2.keyInfo.dataType := by
  refine ⟨?_, ?_, ?_⟩ <;>
    simp [SMCReadKey, SMCGetKeyInfo_fst, SMCGetKeyInfo_counter,
      SMCGetKeyInfo_keyInfo_of_success env 0 (SMCKeyToUInt32 key)
        SMCKeyData_keyInfo_t.zero h1, h1, h2]

/-- C5: on a key string longer than 4 characters, `SMCReadKey` writes exactly
the first 4 characters into the output key field with a terminator at offset 4,
and the encoded key passed to every service call is computed from only the
first 4 bytes. -/
theorem C5_truncation (env : Env) (key : List Nat) (val : SMCVal_t)
    (hlen : 4 < key.length) (hnz : ∀ i < 4, key.getD i 0 ≠ 0) :
    ((SMCReadKey env key val).2.1.key =
      fun i : Fin 5 => if i.1 < 4 then key.getD i.1 0 else 0) ∧
    ∀ c ∈ (SMCReadKey env key val).2.2, c.key = SMCKeyToUInt32 (key.take 4) := by
  have hkey : (SMCReadKey env key val).2.1.key = strncpyKey key := by
    simp only [SMCReadKey]
    split
    · rfl
    · split <;> rfl
  constructor
  · rw [hkey]
    funext i
    unfold strncpyKey
    by_cases hi : i.1 < 4
    · rw [if_pos ⟨hi, fun j hj => hnz j (by omega)⟩, if_pos hi]
    · rw [if_neg (fun hc => hi hc.1), if_neg hi]
  · intro c hc
    rw [SMCKeyToUInt32_take4 key (by omega)]
    revert hc
    simp only [SMCReadKey, SMCGetKeyInfo_trace]
    split
    · simp only [List.mem_singleton]
      intro hc
      subst hc
      rfl
    · simp only [List.mem_append, List.mem_singleton]
      rintro (hc | hc) <;> (subst hc; rfl)

/-- C6: on a fully successful read (both service calls succeed), every byte of
the output record's 32-byte buffer equals the corresponding byte of the
value-read response, for every caller-supplied initial record. -/
theorem C6_full_buffer_copy (env : Env) (key : List Nat) (val : SMCVal_t)
    (h1 : (env.responses 0).1 = kIOReturnSuccess)
    (h2 : (env.responses 1).1 = kIOReturnSuccess) :
    ∀ i : Fin 32, (SMCReadKey env key val).2.1.bytes i = (env.responses 1).2.bytes i := by
  simp [SMCReadKey, SMCGetKeyInfo_fst, SMCGetKeyInfo_counter, h1, h2]

/-- C10: if the metadata query succeeds but the value-read call fails, the
output record's 32-byte buffer is all zeros: it is zero-initialized at entry
and response bytes are copied only on read-phase success. -/
theorem C10_read_failure_bytes_zero (env : Env) (key : List Nat) (val : SMCVal_t)
    (h1 : (env.responses 0).1 = kIOReturnSuccess)
    (h2 : (env.responses 1).1 ≠ kIOReturnSuccess) :
    ∀ i : Fin 32, (SMCReadKey env key val).2.1.bytes i = 0 := by
  simp [SMCReadKey, SMCGetKeyInfo_fst, SMCGetKeyInfo_counter, h1, h2]

/-- A metadata response: dataSize 4, dataType "flt " (0x666C7420). -/
def respMeta : SMCKeyData_t :=
  { SMCKeyData_t.zero with keyInfo := ⟨4, 0x666C7420, 0⟩ }

/-- A value-read response with a distinctive byte pattern. -/
def respBytes : SMCKeyData_t :=
  { SMCKeyData_t.zero with bytes := fun i => (i.1 + 1) % 256 }

/-- Environment whose metadata query succeeds and whose value read fails. -/
def envReadFail : Env :=
  ⟨fun n => if n = 0 then (kIOReturnSuccess, respMeta)
    else (kIOReturnNotFound, SMCKeyData_t.zero)⟩

/-- Environment where both service calls succeed. -/
def envAllOK : Env :=
  ⟨fun n => if n = 0 then (kIOReturnSuccess, respMeta)
    else (kIOReturnSuccess, respBytes)⟩

/-- Witness for C2 at the key "ZZZZ" in an all-failing environment. -/
theorem C2_metadata_failure_witness :
    (SMCReadKey envMetaFail [90, 90, 90, 90] SMCVal_t.zero).1 =
      (envMetaFail.responses 0).1 ∧
    (SMCReadKey envMetaFail [90, 90, 90, 90] SMCVal_t.zero).2.2.length = 1 ∧
    (SMCReadKey envMetaFail [90, 90, 90, 90] SMCVal_t.zero).2.1.key =
      strncpyKey [90, 90, 90, 90] ∧
    (SMCReadKey envMetaFail [90, 90, 90, 90] SMCVal_t.zero).2.1.dataSize = 0 ∧
    (SMCReadKey envMetaFail [90, 90, 90, 90] SMCVal_t.zero).2.1.dataType = 0 ∧
    ∀ i : Fin 32, (SMCReadKey envMetaFail [90, 90, 90, 90] SMCVal_t.zero).2.1.bytes i = 0 :=
  C2_metadata_failure envMetaFail [90, 90, 90, 90] SMCVal_t.zero (by decide)

/-- Witness for C3 at the key "TC0P" in an environment whose read phase fails. -/
theorem C3_read_failure_keeps_metadata_witness :
    (SMCReadKey envReadFail [0x54, 0x43, 0x30, 0x50] SMCVal_t.zero).1 =
      (envReadFail.responses 1).1 ∧
    (SMCReadKey envReadFail [0x54, 0x43, 0x30, 0x50] SMCVal_t.zero).2.1.dataSize =
      (envReadFail.responses 0).2.keyInfo.dataSize ∧
    (SMCReadKey envReadFail [0x54, 0x43, 0x30, 0x50] SMCVal_t.zero).2.1.dataType =
      (envReadFail.responses 0).2.keyInfo.dataType :=
  C3_read_failure_keeps_metadata envReadFail [0x54, 0x43, 0x30, 0x50] SMCVal_t.zero
    (by decide) (by decide)

/-- Witness for C5 at the 5-character key "TC0PX". -/
theorem C5_truncation_witness :
    ((SMCReadKey envAllOK [0x54, 0x43, 0x30, 0x50, 0x58] SMCVal_t.zero).2.1.key =
      fun i : Fin 5 => if i.1 < 4 then [0x54, 0x43, 0x30, 0x50, 0x58].getD i.1 0 else 0) ∧
    ∀ c ∈ (SMCReadKey envAllOK [0x54, 0x43, 0x30, 0x50, 0x58] SMCVal_t.zero).2.2,
      c.key = SMCKeyToUInt32 ([0x54, 0x43, 0x30, 0x50, 0x58].take 4) :=
  C5_truncation envAllOK [0x54, 0x43, 0x30, 0x50, 0x58] SMCVal_t.zero
    (by decide) (by decide)

/-- Witness for C6 in an environment where both calls succeed, at byte 5. -/
theorem C6_full_buffer_copy_witness :
    (SMCReadKey envAllOK [0x54, 0x43, 0x30, 0x50] SMCVal_t.zero).2.1.bytes (5 : Fin 32) =
      (envAllOK.responses 1).2.bytes (5 : Fin 32) :=
  C6_full_buffer_copy envAllOK [0x54, 0x43, 0x30, 0x50] SMCVal_t.zero (by decide) (by decide)
    (5 : Fin 32)

/-- Witness for C10 in an environment whose read phase fails, at byte 5. -/
theorem C10_read_failure_bytes_zero_witness :
    (SMCReadKey envReadFail [0x54, 0x43, 0x30, 0x50] SMCVal_t.zero).2.1.bytes (5 : Fin 32) = 0 :=
  C10_read_failure_bytes_zero envReadFail [0x54, 0x43, 0x30, 0x50] SMCVal_t.zero
    (by decide) (by decide) (5 : Fin 32)
